import Mathlib

/-!
Verification of the Planner/Executor plan protocol of the `agent` repository.

The development shallowly embeds the plan-execution core of
`agent/utils/executor.py` (class `Executor`: `execute_step`,
`_get_llm_synthesis_stream`, `execute_plan`) and the plan-validation path of
`agent/utils/planner.py` (`Planner.generate_plan`, lines 126-190).

Modelling conventions:
- Python values flowing through the executor (plans, steps, tool outputs,
  conversation turns) are embedded as the inductive `PyVal`
  (None / bool / int / str / list / dict with string keys, insertion order
  preserved as in CPython).
- Python exceptions are the inductive `PyExc`; fallible Python expressions
  are embedded as `Except PyExc _`.
- Generators are embedded by their fully-elaborated, deterministic effect:
  a `GenOut` records the ordered list of observable events (fragments
  yielded to the caller, tool-collaborator invocations, model-stream
  invocations) together with the exception, if any, that escapes the
  generator after those events.
- The external collaborators (registered Langchain tools, the Ollama chat
  model, and the stdlib JSON decode of a tool's raw string output) are
  parameters, collected in `Env`; the claims quantify over their behavior.
-/

/-- Embedded Python value (the JSON-like data the executor manipulates). -/
inductive PyVal where
  | none : PyVal
  | bool (b : Bool) : PyVal
  | int (n : Int) : PyVal
  | str (s : String) : PyVal
  | list (xs : List PyVal) : PyVal
  | dict (kvs : List (String × PyVal)) : PyVal

/-- Embedded Python exception, by class and message. -/
inductive PyExc where
  | attributeError (msg : String) : PyExc
  | indexError (msg : String) : PyExc
  | typeError (msg : String) : PyExc
  | keyError (msg : String) : PyExc
  /-- `UnboundLocalError` (a `NameError`): reading a local before assignment. -/
  | nameError (msg : String) : PyExc
  /-- `pydantic.ValidationError`; carries `str(e)` and `str(e.errors())`. -/
  | validationError (msg : String) (details : String) : PyExc
  /-- `json.JSONDecodeError`; carries `str(e)`. -/
  | jsonDecodeError (msg : String) : PyExc
  | otherExc (msg : String) : PyExc

/-- `str(e)` of an embedded exception, as interpolated by the executor's
f-strings. -/
def pyExcMessage : PyExc → String
  | .attributeError m => m
  | .indexError m => m
  | .typeError m => m
  | .keyError m => m
  | .nameError m => m
  | .validationError m _ => m
  | .jsonDecodeError m => m
  | .otherExc m => m

/-- Python `type(v).__name__` for the embedded values. -/
def pyTypeName : PyVal → String
  | .none => "NoneType"
  | .bool _ => "bool"
  | .int _ => "int"
  | .str _ => "str"
  | .list _ => "list"
  | .dict _ => "dict"

/-- Python truthiness (`bool(v)`) of an embedded value. -/
def pyTruthy : PyVal → Bool
  | .none => false
  | .bool b => b
  | .int n => n != 0
  | .str s => s != ""
  | .list xs => !xs.isEmpty
  | .dict kvs => !kvs.isEmpty

/-- First binding of a key in an embedded dict (CPython dicts have unique
keys; lookup finds the binding, `none` when absent). -/
def dictLookup (kvs : List (String × PyVal)) (k : String) : Option PyVal :=
  match kvs with
  | [] => Option.none
  | (k', v) :: rest => if k' == k then some v else dictLookup rest k

/-- CPython dict item assignment `d[k] = v`: overwrite in place (key keeps
its insertion position), append at the end when the key is new. -/
def dictSet (kvs : List (String × PyVal)) (k : String) (v : PyVal) :
    List (String × PyVal) :=
  match kvs with
  | [] => [(k, v)]
  | (k', v') :: rest =>
      if k' == k then (k, v) :: rest else (k', v') :: dictSet rest k v

/-- Python `v.get(k, default)` — a dict method; any non-dict raises
`AttributeError`.  (Callers embed Python's eager evaluation of the default
argument by computing it before calling `pyGet`.) -/
def pyGet (v : PyVal) (k : String) (default : PyVal) : Except PyExc PyVal :=
  match v with
  | .dict kvs => .ok ((dictLookup kvs k).getD default)
  | v =>
      .error (.attributeError
        ("\x27" ++ pyTypeName v ++ "\x27 object has no attribute \x27get\x27"))

/-- Python subscript `v[k]` with a string key. -/
def pyGetItem (v : PyVal) (k : String) : Except PyExc PyVal :=
  match v with
  | .dict kvs =>
      match dictLookup kvs k with
      | some r => .ok r
      | Option.none => .error (.keyError ("\x27" ++ k ++ "\x27"))
  | .str _ => .error (.typeError "string indices must be integers")
  | .list _ =>
      .error (.typeError "list indices must be integers or slices, not str")
  | v =>
      .error (.typeError
        ("\x27" ++ pyTypeName v ++ "\x27 object is not subscriptable"))

/-- Contiguous-sublist test on character lists. -/
def charsInfixOf (needle : List Char) : List Char → Bool
  | [] => needle.isEmpty
  | c :: rest => needle.isPrefixOf (c :: rest) || charsInfixOf needle rest

/-- Python `str.isspace` characters stripped by `str.strip()`. -/
def pyIsSpace (c : Char) : Bool :=
  c == ' ' || c == '\t' || c == '\n' || c == '\r'
    || c == Char.ofNat 11 || c == Char.ofNat 12

/-- Python `s.strip()`: drop leading and trailing whitespace. -/
def pyStrip (s : String) : String :=
  ⟨((s.data.dropWhile pyIsSpace).reverse.dropWhile pyIsSpace).reverse⟩

/-- Prefix test `s.startswith(pre)`. -/
def strStartsWith (s pre : String) : Bool :=
  pre.data.isPrefixOf s.data

/-- Suffix test `s.endswith(suf)`. -/
def strEndsWith (s suf : String) : Bool :=
  suf.data.reverse.isPrefixOf s.data.reverse

/-- Left-to-right non-overlapping replacement on character lists
(`str.replace`), fuelled by the input length. -/
def charsReplace (pat rep : List Char) (s : List Char) : List Char :=
  go s.length s
where
  go : Nat → List Char → List Char
    | _, [] => []
    | 0, l => l
    | fuel+1, c :: rest =>
        if !pat.isEmpty && pat.isPrefixOf (c :: rest) then
          rep ++ go fuel ((c :: rest).drop pat.length)
        else c :: go fuel rest

/-- Python `s.replace(pat, rep)`. -/
def strReplace (s pat rep : String) : String :=
  ⟨charsReplace pat.data rep.data s.data⟩

/-- Membership of one string in another (Python `needle in hay` on `str`). -/
def strContains (hay needle : String) : Bool :=
  charsInfixOf needle.data hay.data

/-- Python `k in v` for a string `k`: key test on dicts, membership on
lists, substring test on strings, `TypeError` on non-containers. -/
def pyContains (v : PyVal) (k : String) : Except PyExc Bool :=
  match v with
  | .dict kvs => .ok (dictLookup kvs k).isSome
  | .list xs => .ok (xs.any (fun x => match x with | .str s => s == k | _ => false))
  | .str s => .ok (strContains s k)
  | v =>
      .error (.typeError
        ("argument of type \x27" ++ pyTypeName v ++ "\x27 is not iterable"))

/-- Python `v == "lit"` against a string literal (only `str` compares equal
to a `str`). -/
def pyEqStr (v : PyVal) (s : String) : Bool :=
  match v with
  | .str s' => s' == s
  | _ => false

/-- Python `xs[-1]` on an embedded list of values. -/
def listGetLast (xs : List PyVal) : Except PyExc PyVal :=
  match xs.getLast? with
  | some v => .ok v
  | Option.none => .error (.indexError "list index out of range")

/-- Python augmented assignment `v += s` with a `str` right operand:
concatenation for `str`, element-wise extend for `list` (a string is an
iterable of 1-character strings), `TypeError` otherwise. -/
def pyIAddStr (v : PyVal) (s : String) : Except PyExc PyVal :=
  match v with
  | .str a => .ok (.str (a ++ s))
  | .list xs => .ok (.list (xs ++ s.data.map (fun c => .str (String.singleton c))))
  | v =>
      .error (.typeError
        ("unsupported operand type(s) for +=: \x27" ++ pyTypeName v
          ++ "\x27 and \x27str\x27"))

/-- `v.isList` — shape test used by `isinstance(x, list)`. -/
def PyVal.isList : PyVal → Bool
  | .list _ => true
  | _ => false

/-- Shape test used by `isinstance(x, dict)`. -/
def PyVal.isDict : PyVal → Bool
  | .dict _ => true
  | _ => false

/-- One escaped character of a Python `repr` of a string, given the chosen
quote character. -/
def pyEscapeChar (quote : Char) (c : Char) : String :=
  if c == '\\' then "\\\\"
  else if c == quote then "\\" ++ String.singleton quote
  else if c == '\n' then "\\n"
  else if c == '\t' then "\\t"
  else if c == '\r' then "\\r"
  else String.singleton c

/-- Python `repr` of a string: single-quoted, double-quoted when the text
contains a single quote but no double quote. -/
def pyQuoteStr (s : String) : String :=
  let apos : Char := Char.ofNat 39
  let q : Char :=
    if s.data.any (fun c => c == apos) && !(s.data.any (fun c => c == '"')) then '"'
    else apos
  String.singleton q ++ String.join (s.data.map (pyEscapeChar q))
    ++ String.singleton q

/-- One escaped character of a JSON string literal (`json.dumps`). -/
def jsonEscapeChar (c : Char) : String :=
  if c == '\\' then "\\\\"
  else if c == '"' then "\\\""
  else if c == '\n' then "\\n"
  else if c == '\t' then "\\t"
  else if c == '\r' then "\\r"
  else String.singleton c

/-- JSON string literal for `json.dumps`. -/
def jsonQuoteStr (s : String) : String :=
  "\"" ++ String.join (s.data.map jsonEscapeChar) ++ "\""

mutual

/-- Python `repr(v)` of an embedded value (as used by `str()` on
containers and by f-string interpolation of dicts). -/
def pyRepr : PyVal → String
  | .none => "None"
  | .bool true => "True"
  | .bool false => "False"
  | .int n => toString n
  | .str s => pyQuoteStr s
  | .list xs => "[" ++ ", ".intercalate (pyReprList xs) ++ "]"
  | .dict kvs => "\x7b" ++ ", ".intercalate (pyReprItems kvs) ++ "\x7d"

def pyReprList : List PyVal → List String
  | [] => []
  | x :: xs => pyRepr x :: pyReprList xs

def pyReprItems : List (String × PyVal) → List String
  | [] => []
  | (k, v) :: kvs => (pyQuoteStr k ++ ": " ++ pyRepr v) :: pyReprItems kvs

end

/-- Python `str(v)`: identity on strings, `repr` rendering otherwise
(f-string interpolation). -/
def pyStr : PyVal → String
  | .str s => s
  | v => pyRepr v

mutual

/-- `json.dumps(v)` with CPython's default separators. -/
def jsonDumps : PyVal → String
  | .none => "null"
  | .bool true => "true"
  | .bool false => "false"
  | .int n => toString n
  | .str s => jsonQuoteStr s
  | .list xs => "[" ++ ", ".intercalate (jsonDumpsList xs) ++ "]"
  | .dict kvs => "\x7b" ++ ", ".intercalate (jsonDumpsItems kvs) ++ "\x7d"

def jsonDumpsList : List PyVal → List String
  | [] => []
  | x :: xs => jsonDumps x :: jsonDumpsList xs

def jsonDumpsItems : List (String × PyVal) → List String
  | [] => []
  | (k, v) :: kvs => (jsonQuoteStr k ++ ": " ++ jsonDumps v) :: jsonDumpsItems kvs

end

/-! ## Collaborators and generator observations -/

/-- One observable event of a plan-execution generator, in emission order. -/
inductive Ev where
  /-- A text fragment yielded to the caller. -/
  | yield (s : String) : Ev
  /-- An invocation of a registered tool collaborator
  (`selected_tool.run(tool_input_arg)`, executor.py:119). -/
  | toolCall (name : PyVal) (arg : PyVal) : Ev
  /-- An invocation of the model-completion streaming collaborator
  (`self.llm.stream(messages)`, executor.py:171). -/
  | llmStreamCall (messages : List PyVal) : Ev

/-- The fully-elaborated behavior of one run of a generator: the events it
produces, then the exception (if any) that escapes it. -/
structure GenOut where
  events : List Ev
  exc : Option PyExc

/-- Deterministic behavior of the model-completion streaming collaborator:
for a message list, the fragments it emits, then the exception (if any) it
raises mid-stream. -/
structure LLMBehavior where
  stream : List PyVal → List String × Option PyExc

/-- Deterministic behavior of one registered tool collaborator:
`tool.run(args)` either returns a raw string (normally the JSON rendering
of its output model) or raises. -/
structure ToolBehavior where
  run : PyVal → Except PyExc String

/-- The executor's collaborator environment: the model client (`self.llm`,
possibly unavailable), the tool registry (`self.tools`; the deployed
registry built by `_initialize_tools` holds `web_search` and `news_search`,
executor.py:52-57), and the behavior of the stdlib `json.loads` applied to
a tool's raw string output (executor.py:122; an error is a
`json.JSONDecodeError` with the given message). -/
structure Env where
  llm : Option LLMBehavior
  tools : List (String × ToolBehavior)
  jsonLoads : String → Except String PyVal

/-- `self.tools.get(tool_name)`: dict lookup keyed by the tool name; an
unhashable name (list/dict) raises `TypeError`, any other non-key simply
misses. -/
def toolsGet (tools : List (String × ToolBehavior)) :
    PyVal → Except PyExc (Option ToolBehavior)
  | .str s =>
      .ok (match tools.find? (fun kv => kv.1 == s) with
           | some kv => some kv.2
           | Option.none => Option.none)
  | .list _ => .error (.typeError "unhashable type: \x27list\x27")
  | .dict _ => .error (.typeError "unhashable type: \x27dict\x27")
  | _ => .ok Option.none

/-- Message object `{"role": role, "content": content}` as composed for the
model client. -/
def mkMessage (role : String) (content : PyVal) : PyVal :=
  .dict [("role", .str role), ("content", content)]

/-- `Executor._get_llm_synthesis_stream` (executor.py:151-177): composes
the message list and forwards the model stream; a missing model client or
a mid-stream exception degrades to a single error fragment, and the
generator itself never raises. -/
def get_llm_synthesis_stream (env : Env) (prompt : PyVal)
    (context_summary : String) (system_prompt : String)
    (chat_history : List PyVal) : GenOut :=
  match env.llm with
  | Option.none =>
      ⟨[.yield "Error: LLM not available for response synthesis."], Option.none⟩
  | some llm =>
      let messages : List PyVal :=
        (if system_prompt == "" then [] else [mkMessage "system" (.str system_prompt)])
        ++ chat_history
        ++ (if context_summary == "" then []
            else [mkMessage "system" (.str ("Context from tools:\n" ++ context_summary))])
        ++ [mkMessage "user" prompt]
      let out := llm.stream messages
      ⟨.llmStreamCall messages :: out.1.map Ev.yield
        ++ (match out.2 with
            | some e =>
                [Ev.yield ("Error: Could not get response from LLM. Details: Error during LLM synthesis stream: "
                  ++ pyExcMessage e)]
            | Option.none => []),
       Option.none⟩

/-- Result of `execute_step`: a ToolResult dict for a tool step, or the
lazy fragment stream of a direct-response step. -/
inductive StepResult where
  | res (r : PyVal) : StepResult
  | gen (g : GenOut) : StepResult

/-- The ToolResult dict literal built by `execute_step`. -/
def mkToolResult (tool_name : PyVal) (status : String) (output : PyVal) : PyVal :=
  .dict [("tool_name", tool_name), ("status", .str status),
         ("output", output), ("is_stream", .bool false)]

/-- The default prompt template of the direct-response step
(executor.py:75-83), instantiated with `str(chat_history[-1]['content'])`
and the accumulated context. -/
def defaultLLMPrompt (userContent context : String) : String :=
  let sp := "                                          "
  "Answer user in a conversational tone, based on the given context.\n"
    ++ sp ++ "Use code blocks if required.\n\n"
    ++ sp ++ "User Query: \n"
    ++ sp ++ userContent ++ "\n\n"
    ++ sp ++ "Context:\n"
    ++ sp ++ context ++ "\n"
    ++ sp

/-- The registered-tool path of `execute_step` (the `try` block and its
handlers, executor.py:98-149).  Returns the events of the tool invocation
together with the outcome; independent of the chat history and the
accumulated context, which this path never reads. -/
def executeToolPath (env : Env) (tool_name : PyVal) (tool : ToolBehavior)
    (arguments : PyVal) : List Ev × Except PyExc StepResult :=
  let evs := [Ev.toolCall tool_name arguments]
  match tool.run arguments with
  | .error (.validationError msg details) =>
      -- except ValidationError (executor.py:133-137)
      (evs, .ok (.res (mkToolResult tool_name "error"
        (.dict [("error", .str ("Input validation error for tool \x27"
                  ++ pyStr tool_name ++ "\x27: " ++ msg)),
                ("details", .str details)]))))
  | .error (.jsonDecodeError _) =>
      -- except json.JSONDecodeError (executor.py:138-142): the handler's
      -- f-string reads `raw_tool_result_json_str`, which is unbound when
      -- `run` itself raised, so the handler raises UnboundLocalError
      (evs, .error (.nameError
        "cannot access local variable \x27raw_tool_result_json_str\x27 where it is not associated with a value"))
  | .error e =>
      -- except Exception (executor.py:143-149)
      (evs, .ok (.res (mkToolResult tool_name "error"
        (.dict [("error", .str ("Unexpected error executing tool \x27"
                  ++ pyStr tool_name ++ "\x27: " ++ pyExcMessage e))]))))
  | .ok raw =>
      match env.jsonLoads raw with
      | .error msg =>
          -- json.loads failed; handler at executor.py:138-142 with raw bound
          (evs, .ok (.res (mkToolResult tool_name "error"
            (.dict [("error", .str ("Error decoding JSON response from tool \x27"
                      ++ pyStr tool_name ++ "\x27: " ++ msg
                      ++ ". Raw response: " ++ raw.take 500))]))))
      | .ok v =>
          match v with
          | .dict kvs =>
              -- tool_result_dict.get("error") truthiness (executor.py:128)
              if pyTruthy ((dictLookup kvs "error").getD PyVal.none)
              then (evs, .ok (.res (mkToolResult tool_name "error" v)))
              else (evs, .ok (.res (mkToolResult tool_name "success" v)))
          | v =>
              -- `.get` on a non-dict raises AttributeError inside the try,
              -- caught by the blanket handler (executor.py:143-149)
              (evs, .ok (.res (mkToolResult tool_name "error"
                (.dict [("error", .str ("Unexpected error executing tool \x27"
                          ++ pyStr tool_name ++ "\x27: \x27" ++ pyTypeName v
                          ++ "\x27 object has no attribute \x27get\x27"))]))))

/-- `Executor.execute_step` (executor.py:63-149).  Returns the ordered
collaborator events of the step together with either its outcome (a
ToolResult dict, or the direct-response fragment stream) or the exception
it lets escape. -/
def execute_step (env : Env) (step_plan : PyVal) (chat_history : List PyVal)
    (context : String) : List Ev × Except PyExc StepResult :=
  match pyGet step_plan "tool" PyVal.none with
  | .error e => ([], .error e)
  | .ok tool_name =>
  match pyGet step_plan "arguments" (.dict []) with
  | .error e => ([], .error e)
  | .ok arguments =>
  match pyGet step_plan "reasoning" (.str "No reasoning provided.") with
  | .error e => ([], .error e)
  | .ok _reasoning =>
  if pyEqStr tool_name "llm_response_generation" then
    -- Python evaluates `.get`'s default argument eagerly, so the template
    -- reads `chat_history[-1]['content']` before the key is consulted
    match listGetLast chat_history with
    | .error e => ([], .error e)
    | .ok lastTurn =>
    match pyGetItem lastTurn "content" with
    | .error e => ([], .error e)
    | .ok lastContent =>
    match pyGet arguments "prompt_to_llm"
        (.str (defaultLLMPrompt (pyStr lastContent) context)) with
    | .error e => ([], .error e)
    | .ok prompt_to_llm =>
      ([], .ok (.gen (get_llm_synthesis_stream env prompt_to_llm "" "Help User"
        chat_history)))
  else
    match toolsGet env.tools tool_name with
    | .error e => ([], .error e)
    | .ok Option.none =>
        -- unknown tool (executor.py:91-96): the recorded output is a plain
        -- string, unlike every other error path
        ([], .ok (.res (mkToolResult tool_name "error"
          (.str ("Tool \x27" ++ pyStr tool_name
            ++ "\x27 not found or not initialized.")))))
    | .ok (some tool) => executeToolPath env tool_name tool arguments

/-! ## The plan runner (`Executor.execute_plan`, executor.py:179-258) -/

/-- The structural validity test at executor.py:189:
`not plan_json or "plan" not in plan_json or not isinstance(plan_json["plan"], list)`,
with Python's short-circuit evaluation (so the membership/subscript
`TypeError`s surface exactly when CPython would raise them). -/
def planInvalid (plan_json : PyVal) : Except PyExc Bool :=
  if !pyTruthy plan_json then .ok true
  else match pyContains plan_json "plan" with
    | .error e => .error e
    | .ok c =>
      if !c then .ok true
      else match pyGetItem plan_json "plan" with
        | .error e => .error e
        | .ok p => .ok !p.isList

/-- `plan_json["plan"]` as read at executor.py:195; only evaluated after
`planInvalid` returned `false`, which forces the dict/list shape. -/
def planStepsOf (plan_json : PyVal) : List PyVal :=
  match plan_json with
  | .dict kvs =>
      match dictLookup kvs "plan" with
      | some (.list xs) => xs
      | _ => []
  | _ => []

/-- The per-result body of the synthesis summary loop
(executor.py:234-243): returns the updated `(successful, failed)` detail
lines, or the exception the body raises. -/
def summarizeResult (acc : List String × List String) (out : PyVal) :
    Except PyExc (List String × List String) := do
  let output_data ← pyGet out "output" (.dict [])
  let status ← pyGet out "status" PyVal.none
  if pyEqStr status "success" then
    let tname ← pyGetItem out "tool_name"
    return (acc.1 ++ ["Tool \x27" ++ pyStr tname ++ "\x27 reported: "
      ++ jsonDumps output_data], acc.2)
  else
    -- executor.py:240 — `.get` on the output payload; raises
    -- AttributeError when the payload is not a dict
    let error_detail ← pyGet output_data "error" (.str "Unknown error")
    let error_detail ←
      if output_data.isDict && (match output_data with
          | .dict kvs => (dictLookup kvs "details").isSome
          | _ => false) then do
        let dv ← pyGetItem output_data "details"
        pyIAddStr error_detail (" (Details: " ++ pyStr dv ++ ")")
      else
        pure error_detail
    let tname ← pyGetItem out "tool_name"
    return (acc.1, acc.2 ++ ["Tool \x27" ++ pyStr tname
      ++ "\x27 failed with error: " ++ pyStr error_detail])

/-- The synthesis summary loop over the collected ToolResults
(executor.py:234-243). -/
def summarizeResults (outs : List PyVal) (acc : List String × List String) :
    Except PyExc (List String × List String) :=
  match outs with
  | [] => .ok acc
  | out :: rest => do
      let acc' ← summarizeResult acc out
      summarizeResults rest acc'

/-- Newline join (`"\n".join(...)`). -/
def joinLines : List String → String
  | [] => ""
  | [x] => x
  | x :: xs => x ++ "\n" ++ joinLines xs

/-- The implicit end-of-plan synthesis (executor.py:228-254): builds the
synthesis prompt and context summary from the collected ToolResults and
returns the synthesis stream, or the exception the summary loop raises. -/
def synthesize (env : Env) (plan_json : PyVal) (outs : List PyVal) :
    Except PyExc GenOut := do
  let origQ ← pyGet plan_json "original_query" (.str "Not available")
  let synthesis_prompt :=
    "Based on the results of the operations, provide a comprehensive answer to the user\x27s original query: \nOriginal query: "
      ++ pyStr origQ ++ " "
  let details ← summarizeResults outs ([], [])
  let context_summary :=
    (if details.1.isEmpty then ""
     else "\nSuccessful operations:\n" ++ joinLines details.1)
    ++ (if details.2.isEmpty then ""
        else "\nFailed operations:\n" ++ joinLines details.2)
  let context_summary :=
    if context_summary == "" then "No information was gathered from agent.tools."
    else context_summary
  return get_llm_synthesis_stream env (.str synthesis_prompt)
    (pyStrip context_summary) "" []

/-- Exit of the step loop: an early `return` out of the generator (with the
events so far), or normal completion carrying the accumulated events,
collected ToolResults and context string. -/
inductive LoopExit where
  | returned (g : GenOut) : LoopExit
  | completed (events : List Ev) (outs : List PyVal) (context : String) : LoopExit

/-- The step loop of `execute_plan` (executor.py:199-221).  A
direct-response step forwards its fragment stream and returns (terminal,
executor.py:203-210); a tool step records its ToolResult and extends the
running context (executor.py:211-221). -/
def loopSteps (env : Env) (chat_history : List PyVal) :
    List PyVal → List Ev → List PyVal → String → LoopExit
  | [], evts, outs, ctx => .completed evts outs ctx
  | step :: rest, evts, outs, ctx =>
      match pyGet step "tool" PyVal.none with
      | .error e => .returned ⟨evts, some e⟩
      | .ok step_tool_name =>
        match execute_step env step chat_history ctx with
        | (sevts, .error e) => .returned ⟨evts ++ sevts, some e⟩
        | (sevts, .ok r) =>
          if pyEqStr step_tool_name "llm_response_generation" then
            match r with
            | .gen g => .returned ⟨evts ++ sevts ++ g.events, g.exc⟩
            | .res d =>
                -- unreachable: `execute_step` yields a stream exactly for
                -- this tool name; iterating the dict would yield its keys
                .returned ⟨evts ++ sevts ++ (match d with
                  | .dict kvs => kvs.map (fun kv => Ev.yield kv.1)
                  | _ => []), Option.none⟩
          else
            match r with
            | .res d =>
                loopSteps env chat_history rest (evts ++ sevts)
                  (outs ++ [d]) (ctx ++ "\n\n" ++ pyStr d)
            | .gen _ =>
                -- unreachable: a stream is only produced for the
                -- direct-response tool name; Python would raise at the
                -- status subscript (executor.py:219)
                .returned ⟨evts ++ sevts,
                  some (.typeError "\x27generator\x27 object is not subscriptable")⟩

/-- `Executor.execute_plan` (executor.py:179-258): the full observable
behavior of one plan execution — every fragment yielded, every
collaborator invocation, and the exception (if any) that escapes the
generator. -/
def execute_plan (env : Env) (plan_json : PyVal)
    (conversation_history : List PyVal) : GenOut :=
  match env.llm with
  | Option.none =>
      ⟨[.yield "Error: The main language model is not available. Cannot execute plan."],
       Option.none⟩
  | some _ =>
    match planInvalid plan_json with
    | .error e => ⟨[], some e⟩
    | .ok true =>
        ⟨[.yield "I encountered an issue with planning. Could you please rephrase your request?"],
         Option.none⟩
    | .ok false =>
      let plan_steps := planStepsOf plan_json
      match loopSteps env conversation_history plan_steps [] [] "" with
      | .returned g => g
      | .completed evts outs _ctx =>
        if !outs.isEmpty then
          match synthesize env plan_json outs with
          | .error e => ⟨evts, some e⟩
          | .ok g => ⟨evts ++ g.events, g.exc⟩
        else if plan_steps.isEmpty then
          ⟨evts ++ [.yield "I received an empty plan. How can I assist you?"],
           Option.none⟩
        else
          ⟨evts ++ [.yield "I carried out the steps, but there was no information to report or an issue occurred."],
           Option.none⟩

/-! ## Observations on generator runs -/

/-- The fragments among a run's events, in order. -/
def fragmentsOfEvents : List Ev → List String
  | [] => []
  | .yield s :: rest => s :: fragmentsOfEvents rest
  | _ :: rest => fragmentsOfEvents rest

/-- The text fragments of a run, in order (what the caller concatenates
into the assistant's turn). -/
def fragmentsOf (g : GenOut) : List String :=
  fragmentsOfEvents g.events

/-- Number of tool-collaborator invocations among a run's events. -/
def countToolCalls : List Ev → Nat
  | [] => 0
  | .toolCall _ _ :: rest => countToolCalls rest + 1
  | _ :: rest => countToolCalls rest

/-- Number of model-stream invocations among a run's events. -/
def countLLMCalls : List Ev → Nat
  | [] => 0
  | .llmStreamCall _ :: rest => countLLMCalls rest + 1
  | _ :: rest => countLLMCalls rest

/-- The message lists of the model-stream invocations of a run, in order. -/
def llmCallsOf : List Ev → List (List PyVal)
  | [] => []
  | .llmStreamCall m :: rest => m :: llmCallsOf rest
  | _ :: rest => llmCallsOf rest

/-- Whether some model-stream invocation among the events carries a message
whose `content` string contains `needle`. -/
def llmCallContains (evts : List Ev) (needle : String) : Bool :=
  evts.any (fun e => match e with
    | .llmStreamCall msgs =>
        msgs.any (fun m => match m with
          | .dict kvs =>
              match dictLookup kvs "content" with
              | some (.str c) => strContains c needle
              | _ => false
          | _ => false)
    | _ => false)

/-! ## The planner validation path (`Planner.generate_plan`, planner.py) -/

/-- The fallback plan built when planning fails (planner.py:182-190). -/
def plannerFallback (user_query : String) : PyVal :=
  .dict [("original_query", .str user_query),
         ("plan", .list [.dict
           [("step", .int 1),
            ("tool", .str "llm_response_generation"),
            ("arguments", .dict [("prompt_to_llm", .str
              ("I had trouble understanding that or planning for it. Could you please rephrase? Original query: "
                ++ user_query))]),
            ("reasoning", .str "Fallback due to a planning error.")]])]

/-- The fallback plan built when the planner's model client is unavailable
(planner.py:54-62). -/
def plannerUnavailableFallback (user_query : String) : PyVal :=
  .dict [("original_query", .str user_query),
         ("plan", .list [.dict
           [("step", .int 1),
            ("tool", .str "llm_response_generation"),
            ("arguments", .dict [("prompt_to_llm", .str
              ("I am currently unable to create a detailed plan. Can you try rephrasing or asking a simpler question? Original query: "
                ++ user_query))]),
            ("reasoning", .str "Fallback due to planner LLM unavailability.")]])]

/-- Markdown code-fence cleanup of the model's plan string
(planner.py:132-136). -/
def stripFences (s : String) : String :=
  if strStartsWith s "```json" then
    pyStrip (strReplace (strReplace s "```json" "") "```" "")
  else if strStartsWith s "```" && strEndsWith s "```" then
    pyStrip ⟨(s.data.drop 3).take ((s.data.drop 3).length - 3)⟩
  else s

/-- Per-step validation and repair of the plan's step list
(planner.py:149-160): each step must contain the `tool`, `arguments` and
`reasoning` keys (short-circuit `all(...)`), and a non-dict `arguments` is
reparsed when it is a string, else rejected.  Raised `ValueError`s /
`TypeError`s are the exceptions the planner's handlers turn into the
fallback. -/
def fixStep (jsonLoads : String → Except String PyVal) (step : PyVal) :
    Except PyExc PyVal :=
  let missing : Except PyExc PyVal := .error (.otherExc
    ("Invalid step in plan: " ++ pyStr step ++ ". Missing required keys."))
  match pyContains step "tool" with
  | .error e => .error e
  | .ok t =>
    if !t then missing
    else match pyContains step "arguments" with
    | .error e => .error e
    | .ok a =>
      if !a then missing
      else match pyContains step "reasoning" with
      | .error e => .error e
      | .ok r =>
        if !r then missing
        else match pyGetItem step "arguments" with
        | .error e => .error e
        | .ok args =>
          if args.isDict then .ok step
          else match args with
          | .str s =>
              match jsonLoads s with
              | .ok v =>
                  -- planner.py:156 — in-place repair; the parsed value is
                  -- NOT re-checked to be a mapping
                  .ok (match step with
                    | .dict kvs => .dict (dictSet kvs "arguments" v)
                    | step => step)
              | .error _ =>
                  match pyGetItem step "tool" with
                  | .error e => .error e
                  | .ok tv => .error (.otherExc
                      ("Step arguments for tool \x27" ++ pyStr tv
                        ++ "\x27 are not a valid JSON object or stringified JSON: "
                        ++ pyStr args))
          | _ =>
              match pyGetItem step "tool" with
              | .error e => .error e
              | .ok tv => .error (.otherExc
                  ("Step arguments for tool \x27" ++ pyStr tv
                    ++ "\x27 are not a dictionary: " ++ pyStr args))

/-- The step-list traversal of planner.py:149-160. -/
def fixSteps (jsonLoads : String → Except String PyVal) :
    List PyVal → Except PyExc (List PyVal)
  | [] => .ok []
  | s :: rest =>
      match fixStep jsonLoads s with
      | .error e => .error e
      | .ok s' =>
          match fixSteps jsonLoads rest with
          | .error e => .error e
          | .ok rest' => .ok (s' :: rest')

/-- The structural validation of a parsed plan (planner.py:147-166):
either the validated (step-repaired, `original_query`-completed) plan, or
the exception the planner's handlers turn into the fallback. -/
def validatePlan (jsonLoads : String → Except String PyVal) (plan : PyVal)
    (user_query : String) : Except PyExc PyVal :=
  match pyContains plan "plan" with
  | .error e => .error e
  | .ok c =>
    if c then
      match pyGetItem plan "plan" with
      | .error e => .error e
      | .ok (.list steps) =>
          (match fixSteps jsonLoads steps with
           | .error e => .error e
           | .ok steps' =>
             let plan' := (match plan with
               | .dict kvs => PyVal.dict (dictSet kvs "plan" (.list steps'))
               | plan => plan)
             match pyContains plan' "original_query" with
             | .error e => .error e
             | .ok hasQ =>
                 if hasQ then .ok plan'
                 else .ok (match plan' with
                   | .dict kvs =>
                       PyVal.dict (dictSet kvs "original_query" (.str user_query))
                   | plan' => plan'))
      | .ok _ => .error (.otherExc "LLM generated invalid plan structure.")
    else .error (.otherExc "LLM generated invalid plan structure.")

/-- Handling of the model's plan response (planner.py:126-190):
fence-stripping and JSON decoding for a string response (decode failure
and validation failure degrade to the fallback plan), the
structured-output shortcut for an already-parsed dict bearing a `plan` key
(planner.py:139-140, returned without validation), and the fallback for
anything else. -/
def processPlannerResponse (jsonLoads : String → Except String PyVal)
    (content : PyVal) (user_query : String) : PyVal :=
  match content with
  | .str s0 =>
      match jsonLoads (stripFences s0) with
      | .error _ => plannerFallback user_query
      | .ok parsed =>
          match validatePlan jsonLoads parsed user_query with
          | .ok p => p
          | .error _ => plannerFallback user_query
  | .dict kvs =>
      if (dictLookup kvs "plan").isSome then .dict kvs
      else plannerFallback user_query
  | _ => plannerFallback user_query

/-- `Planner.generate_plan` from the model response onward: `Option.none`
models an unavailable planner model (planner.py:51-62), `.error` a raised
`invoke` (planner.py:174-179); the prompt construction feeding the
external model (planner.py:64-99) is not observable in the returned plan
and is elided. -/
def generate_plan (jsonLoads : String → Except String PyVal)
    (response : Option (Except PyExc PyVal)) (user_query : String) : PyVal :=
  match response with
  | Option.none => plannerUnavailableFallback user_query
  | some (.error _) => plannerFallback user_query
  | some (.ok content) => processPlannerResponse jsonLoads content user_query

/-! ## Concrete fixtures

Deterministic collaborator behaviors and plans used to evaluate the
executor at concrete inputs.  `envA` mirrors the deployed registry
(`web_search` and `news_search`, executor.py:52-57): its `web_search`
returns a success payload, its `news_search` returns a payload whose
`error` field is set; `jlA` is `json.loads` restricted to those two raw
outputs. -/

def lA : LLMBehavior := ⟨fun _ => (["Hello", " world"], Option.none)⟩

def rawWebOk : String := "\x7b\"results\": [\"r1\"], \"error\": null\x7d"

def rawNewsErr : String := "\x7b\"error\": \"boom\"\x7d"

def jlA : String → Except String PyVal := fun s =>
  if s == rawWebOk then
    .ok (.dict [("results", .list [.str "r1"]), ("error", PyVal.none)])
  else if s == rawNewsErr then
    .ok (.dict [("error", .str "boom")])
  else .error "Expecting value: line 1 column 1 (char 0)"

def envA : Env :=
  ⟨some lA,
   [("web_search", ⟨fun _ => .ok rawWebOk⟩),
    ("news_search", ⟨fun _ => .ok rawNewsErr⟩)],
   jlA⟩

def histA : List PyVal := [.dict [("role", .str "user"), ("content", .str "hi")]]

def stepNonexistent : PyVal :=
  .dict [("tool", .str "nonexistent_tool"), ("arguments", .dict []),
         ("reasoning", .str "r")]

def planNonexistent : PyVal :=
  .dict [("original_query", .str "q"), ("plan", .list [stepNonexistent])]

def planMystery : PyVal :=
  .dict [("plan", .list [.dict [("tool", .str "mystery_tool"),
    ("arguments", .dict []), ("reasoning", .str "r")]])]

def stepWebA : PyVal :=
  .dict [("tool", .str "web_search"),
         ("arguments", .dict [("query", .str "x")]), ("reasoning", .str "r")]

def stepNewsA : PyVal :=
  .dict [("tool", .str "news_search"),
         ("arguments", .dict [("query", .str "y")]), ("reasoning", .str "r")]

def planTwoA : PyVal :=
  .dict [("original_query", .str "tell me"),
         ("plan", .list [stepWebA, stepNewsA])]

/-- Two tool steps whose second names a tool absent from the deployed
registry (`get_weather` is commented out in `_initialize_tools`). -/
def planTwoBad : PyVal :=
  .dict [("original_query", .str "tell me"),
         ("plan", .list [stepWebA,
           .dict [("tool", .str "get_weather"),
                  ("arguments", .dict [("city", .str "London")]),
                  ("reasoning", .str "r")]])]

/-- `envA` with `web_search` raising `json.JSONDecodeError` from inside its
own adapter (e.g. a malformed upstream HTTP body parsed by `requests`). -/
def envToolJsonErr : Env :=
  ⟨some lA,
   [("web_search", ⟨fun _ =>
      .error (.jsonDecodeError "Expecting value: line 1 column 1 (char 0)")⟩)],
   jlA⟩

/-- `envA` with `web_search` raising a generic request timeout. -/
def envToolTimeout : Env :=
  ⟨some lA, [("web_search", ⟨fun _ => .error (.otherExc "Read timed out.")⟩)], jlA⟩

/-! ## Claims C1, C2, C3, C5: the fail-soft policy against the code -/

/-- C1: a plan whose only step names an unregistered tool.  The step's
recorded ToolResult does have `status="error"` with a message identifying
`nonexistent_tool` as unknown — but, contrary to the claim, the implicit
synthesis call never happens: the unknown-tool result's `output` is a plain
string (executor.py:96), and the synthesis summary calls `.get` on it
(executor.py:240), so iteration raises `AttributeError` after zero
fragments and zero model calls. -/
theorem claim_C1_bug :
    execute_step envA stepNonexistent histA "" =
      ([], .ok (.res (mkToolResult (.str "nonexistent_tool") "error"
        (.str "Tool \x27nonexistent_tool\x27 not found or not initialized."))))
    ∧ execute_plan envA planNonexistent histA =
        ⟨[], some (.attributeError "\x27str\x27 object has no attribute \x27get\x27")⟩
    ∧ countLLMCalls (execute_plan envA planNonexistent histA).events = 0 :=
  ⟨rfl, rfl, rfl⟩

/-- C2: iterating `execute_plan` is claimed to never raise; it does.  On a
plan whose only step names an unknown tool, iteration yields no fragment
and raises `AttributeError` to the caller. -/
theorem claim_C2_bug :
    (execute_plan envA planMystery histA).exc =
      some (.attributeError "\x27str\x27 object has no attribute \x27get\x27")
    ∧ fragmentsOf (execute_plan envA planMystery histA) = [] :=
  ⟨rfl, rfl⟩

/-- C3: a registered tool whose invocation raises `json.JSONDecodeError`.
The matching handler (executor.py:138-142) formats
`raw_tool_result_json_str`, which is unbound when `run` itself raised, so
`execute_step` raises `UnboundLocalError` instead of returning an error
ToolResult.  By contrast, a generic exception (here a timeout) is
converted to an error ToolResult as the claim describes. -/
theorem claim_C3_bug :
    execute_step envToolJsonErr stepWebA histA "" =
      ([.toolCall (.str "web_search") (.dict [("query", .str "x")])],
       .error (.nameError
         "cannot access local variable \x27raw_tool_result_json_str\x27 where it is not associated with a value"))
    ∧ execute_step envToolTimeout stepWebA histA "" =
        ([.toolCall (.str "web_search") (.dict [("query", .str "x")])],
         .ok (.res (mkToolResult (.str "web_search") "error"
           (.dict [("error", .str
             "Unexpected error executing tool \x27web_search\x27: Read timed out.")])))) :=
  ⟨rfl, rfl⟩

/-- C5: for a plan of two registered tool steps (one succeeding, one whose
payload reports an error) the after-loop synthesis does make exactly one
model call whose context summary lists both results and whose prompt
carries the original query.  But the claim's "regardless of whether any
step failed" fails: when the second tool step names an unregistered tool,
the summary construction raises `AttributeError` on the unknown-tool
result's string output and zero synthesis calls are made. -/
theorem claim_C5_bug :
    ((execute_plan envA planTwoA histA).exc = Option.none
     ∧ countLLMCalls (execute_plan envA planTwoA histA).events = 1
     ∧ countToolCalls (execute_plan envA planTwoA histA).events = 2
     ∧ llmCallContains (execute_plan envA planTwoA histA).events
         "Original query: tell me" = true
     ∧ llmCallContains (execute_plan envA planTwoA histA).events
         "Tool \x27web_search\x27 reported: " = true
     ∧ llmCallContains (execute_plan envA planTwoA histA).events
         "Tool \x27news_search\x27 failed with error: boom" = true)
    ∧ (countLLMCalls (execute_plan envA planTwoBad histA).events = 0
       ∧ (execute_plan envA planTwoBad histA).exc =
           some (.attributeError "\x27str\x27 object has no attribute \x27get\x27")) :=
  ⟨⟨rfl, rfl, rfl, rfl, rfl, rfl⟩, rfl, rfl⟩

/-! ## Supporting lemmas -/

theorem dictLookup_some_not_nil {kvs : List (String × PyVal)} {k : String}
    {v : PyVal} (h : dictLookup kvs k = some v) : kvs.isEmpty = false := by
  cases kvs with
  | nil => simp [dictLookup] at h
  | cons hd tl => rfl

/-- `planInvalid` accepts exactly the dicts carrying a `plan` list. -/
theorem planInvalid_ok_false {kvs : List (String × PyVal)} {steps : List PyVal}
    (h : dictLookup kvs "plan" = some (.list steps)) :
    planInvalid (.dict kvs) = .ok false := by
  have hne : kvs.isEmpty = false := dictLookup_some_not_nil h
  simp [planInvalid, pyTruthy, hne, pyContains, pyGetItem, h, PyVal.isList]

theorem planInvalid_ok_true {kvs : List (String × PyVal)}
    (h : kvs = [] ∨ dictLookup kvs "plan" = Option.none
      ∨ ∃ v, dictLookup kvs "plan" = some v ∧ v.isList = false) :
    planInvalid (.dict kvs) = .ok true := by
  rcases h with h | h | ⟨v, hv, hvl⟩
  · subst h; rfl
  · cases hkvs : kvs.isEmpty with
    | true =>
        have : kvs = [] := by
          cases kvs with
          | nil => rfl
          | cons a b => simp [List.isEmpty] at hkvs
        subst this; rfl
    | false => simp [planInvalid, pyTruthy, hkvs, pyContains, h]
  · have hne : kvs.isEmpty = false := dictLookup_some_not_nil hv
    simp [planInvalid, pyTruthy, hne, pyContains, pyGetItem, hv, hvl]

theorem planStepsOf_dict {kvs : List (String × PyVal)} {steps : List PyVal}
    (h : dictLookup kvs "plan" = some (.list steps)) :
    planStepsOf (.dict kvs) = steps := by
  simp [planStepsOf, h]

/-! ## Claim C6: structurally invalid plans -/

/-- C6: for a plan object that is empty, lacks the `plan` key, or whose
`plan` value is not a list, `execute_plan` (model client available) yields
exactly the fixed rephrase fragment and terminates with no tool and no
model invocation. -/
theorem claim_C6 (env : Env) (l : LLMBehavior) (hllm : env.llm = some l)
    (kvs : List (String × PyVal)) (hist : List PyVal)
    (hbad : kvs = [] ∨ dictLookup kvs "plan" = Option.none
      ∨ ∃ v, dictLookup kvs "plan" = some v ∧ v.isList = false) :
    execute_plan env (.dict kvs) hist =
      ⟨[.yield "I encountered an issue with planning. Could you please rephrase your request?"],
       Option.none⟩
    ∧ countToolCalls (execute_plan env (.dict kvs) hist).events = 0
    ∧ countLLMCalls (execute_plan env (.dict kvs) hist).events = 0 := by
  obtain ⟨llm, tools, jl⟩ := env
  simp only [Env.llm] at hllm
  subst hllm
  have h1 : execute_plan ⟨some l, tools, jl⟩ (.dict kvs) hist =
      ⟨[.yield "I encountered an issue with planning. Could you please rephrase your request?"],
       Option.none⟩ := by
    simp only [execute_plan, planInvalid_ok_true hbad]
  exact ⟨h1, by rw [h1]; rfl, by rw [h1]; rfl⟩

/-- C6 witness: the empty plan object, a model client present. -/
theorem claim_C6_witness :
    execute_plan envA (.dict []) histA =
      ⟨[.yield "I encountered an issue with planning. Could you please rephrase your request?"],
       Option.none⟩
    ∧ countToolCalls (execute_plan envA (.dict []) histA).events = 0
    ∧ countLLMCalls (execute_plan envA (.dict []) histA).events = 0 :=
  claim_C6 envA lA rfl [] histA (Or.inl rfl)

/-! ## Claim C7: the well-formed empty plan -/

/-- C7: on `{"plan": []}` the runner yields exactly the fixed clarification
fragment and makes zero tool and zero model invocations. -/
theorem claim_C7 (env : Env) (l : LLMBehavior) (hllm : env.llm = some l)
    (hist : List PyVal) :
    execute_plan env (.dict [("plan", .list [])]) hist =
      ⟨[.yield "I received an empty plan. How can I assist you?"], Option.none⟩
    ∧ countToolCalls (execute_plan env (.dict [("plan", .list [])]) hist).events = 0
    ∧ countLLMCalls (execute_plan env (.dict [("plan", .list [])]) hist).events = 0 := by
  obtain ⟨llm, tools, jl⟩ := env
  simp only [Env.llm] at hllm
  subst hllm
  exact ⟨rfl, rfl, rfl⟩

/-- C7 witness at a concrete environment and history. -/
theorem claim_C7_witness :
    execute_plan envA (.dict [("plan", .list [])]) histA =
      ⟨[.yield "I received an empty plan. How can I assist you?"], Option.none⟩
    ∧ countToolCalls (execute_plan envA (.dict [("plan", .list [])]) histA).events = 0
    ∧ countLLMCalls (execute_plan envA (.dict [("plan", .list [])]) histA).events = 0 :=
  claim_C7 envA lA rfl histA

theorem countToolCalls_cons_yield (s : String) (rest : List Ev) :
    countToolCalls (.yield s :: rest) = countToolCalls rest := rfl

theorem countToolCalls_cons_llm (m : List PyVal) (rest : List Ev) :
    countToolCalls (.llmStreamCall m :: rest) = countToolCalls rest := rfl

theorem countToolCalls_cons_tool (n a : PyVal) (rest : List Ev) :
    countToolCalls (.toolCall n a :: rest) = countToolCalls rest + 1 := rfl

theorem countToolCalls_map_yield (l : List String) :
    countToolCalls (l.map Ev.yield) = 0 := by
  induction l with
  | nil => rfl
  | cons a l ih => simpa [countToolCalls_cons_yield] using ih

theorem countToolCalls_append (l₁ l₂ : List Ev) :
    countToolCalls (l₁ ++ l₂) = countToolCalls l₁ + countToolCalls l₂ := by
  induction l₁ with
  | nil => simp [countToolCalls]
  | cons e l ih =>
      cases e with
      | yield s =>
          rw [List.cons_append, countToolCalls_cons_yield,
            countToolCalls_cons_yield, ih]
      | toolCall n a =>
          rw [List.cons_append, countToolCalls_cons_tool,
            countToolCalls_cons_tool, ih]
          omega
      | llmStreamCall m =>
          rw [List.cons_append, countToolCalls_cons_llm,
            countToolCalls_cons_llm, ih]

theorem countToolCalls_stream_aux (msgs : List PyVal)
    (out : List String × Option PyExc) :
    countToolCalls ((Ev.llmStreamCall msgs :: out.1.map Ev.yield) ++
      (match out.2 with
       | some e =>
           [Ev.yield ("Error: Could not get response from LLM. Details: Error during LLM synthesis stream: "
             ++ pyExcMessage e)]
       | Option.none => [])) = 0 := by
  obtain ⟨frags, exc⟩ := out
  rw [countToolCalls_append, countToolCalls_cons_llm, countToolCalls_map_yield]
  cases exc <;> rfl

/-- A synthesis stream performs no tool invocation. -/
theorem countToolCalls_stream (env : Env) (p : PyVal) (cs sp : String)
    (ch : List PyVal) :
    countToolCalls (get_llm_synthesis_stream env p cs sp ch).events = 0 := by
  obtain ⟨llm, tools, jl⟩ := env
  cases llm with
  | none => rfl
  | some l =>
      simp only [get_llm_synthesis_stream]
      exact countToolCalls_stream_aux _ _

/-- A direct-response step reduces to its synthesis stream: the arguments
mapping's explicit prompt, or the default template read from the last
conversation turn. -/
theorem execute_step_sentinel (env : Env) (skvs akvs : List (String × PyVal))
    (hist : List PyVal) (lastTurn lastContent : PyVal) (ctx : String)
    (htool : dictLookup skvs "tool" = some (.str "llm_response_generation"))
    (hargs : (dictLookup skvs "arguments").getD (.dict []) = .dict akvs)
    (hlast : listGetLast hist = .ok lastTurn)
    (hcontent : pyGetItem lastTurn "content" = .ok lastContent) :
    execute_step env (.dict skvs) hist ctx =
      ([], .ok (.gen (get_llm_synthesis_stream env
        ((dictLookup akvs "prompt_to_llm").getD
          (.str (defaultLLMPrompt (pyStr lastContent) ctx)))
        "" "Help User" hist))) := by
  simp [execute_step, pyGet, htool, hargs, hlast, hcontent, pyEqStr]

/-- A synthesis stream never lets an exception escape
(executor.py:151-177 catches everything). -/
theorem get_llm_synthesis_stream_exc (env : Env) (p : PyVal) (cs sp : String)
    (ch : List PyVal) :
    (get_llm_synthesis_stream env p cs sp ch).exc = Option.none := by
  obtain ⟨llm, tools, jl⟩ := env
  cases llm with
  | none => rfl
  | some l => rfl

/-! ## Claim C4: the direct-response step is terminal -/

/-- C4: a direct-response sentinel step (a mapping with
`tool = "llm_response_generation"` and a mapping `arguments`) is terminal
wherever it occurs in a plan.  The history's last turn must carry
`content`: the defaulted-prompt template reads it eagerly even when an
explicit prompt is present.  First conjunct — at an arbitrary reached loop
state (whatever events, collected results and running context earlier tool
steps produced), the loop returns immediately with the step's synthesis
stream forwarded fragment-by-fragment after the prior events and no
exception; the right-hand side mentions neither the remaining steps `rest`
nor the collected results, so no step after the sentinel is executed, and
the stream performs no tool invocation.  Second conjunct — specialised to
plans whose step list begins with the sentinel, `execute_plan` equals the
synthesis stream itself and makes zero tool-collaborator calls. -/
theorem claim_C4 (env : Env) (l : LLMBehavior) (hllm : env.llm = some l)
    (skvs akvs : List (String × PyVal))
    (htool : dictLookup skvs "tool" = some (.str "llm_response_generation"))
    (hargs : (dictLookup skvs "arguments").getD (.dict []) = .dict akvs)
    (hist : List PyVal) (lastTurn lastContent : PyVal)
    (hlast : listGetLast hist = .ok lastTurn)
    (hcontent : pyGetItem lastTurn "content" = .ok lastContent) :
    (∀ (rest : List PyVal) (evts : List Ev) (outs : List PyVal) (ctx : String),
        loopSteps env hist (.dict skvs :: rest) evts outs ctx =
          .returned ⟨evts ++ (get_llm_synthesis_stream env
            ((dictLookup akvs "prompt_to_llm").getD
              (.str (defaultLLMPrompt (pyStr lastContent) ctx)))
            "" "Help User" hist).events, Option.none⟩
        ∧ countToolCalls (get_llm_synthesis_stream env
            ((dictLookup akvs "prompt_to_llm").getD
              (.str (defaultLLMPrompt (pyStr lastContent) ctx)))
            "" "Help User" hist).events = 0)
    ∧ ∀ (kvs : List (String × PyVal)) (rest : List PyVal),
        dictLookup kvs "plan" = some (.list (.dict skvs :: rest)) →
        execute_plan env (.dict kvs) hist =
          get_llm_synthesis_stream env
            ((dictLookup akvs "prompt_to_llm").getD
              (.str (defaultLLMPrompt (pyStr lastContent) "")))
            "" "Help User" hist
        ∧ countToolCalls (execute_plan env (.dict kvs) hist).events = 0 := by
  obtain ⟨llm, tools, jl⟩ := env
  simp only [Env.llm] at hllm
  subst hllm
  have hloop : ∀ (rest : List PyVal) (evts : List Ev) (outs : List PyVal)
      (ctx : String),
      loopSteps ⟨some l, tools, jl⟩ hist (.dict skvs :: rest) evts outs ctx =
        .returned ⟨evts ++ (get_llm_synthesis_stream ⟨some l, tools, jl⟩
          ((dictLookup akvs "prompt_to_llm").getD
            (.str (defaultLLMPrompt (pyStr lastContent) ctx)))
          "" "Help User" hist).events, Option.none⟩ := by
    intro rest evts outs ctx
    simp only [loopSteps, pyGet, htool,
      execute_step_sentinel ⟨some l, tools, jl⟩ skvs akvs hist lastTurn
        lastContent ctx htool hargs hlast hcontent,
      pyEqStr, Option.getD_some, beq_self_eq_true, if_true,
      List.append_nil, List.nil_append, get_llm_synthesis_stream_exc]
  refine ⟨fun rest evts outs ctx =>
    ⟨hloop rest evts outs ctx, countToolCalls_stream _ _ _ _ _⟩, ?_⟩
  intro kvs rest hplan
  have hmain : execute_plan ⟨some l, tools, jl⟩ (.dict kvs) hist =
      get_llm_synthesis_stream ⟨some l, tools, jl⟩
        ((dictLookup akvs "prompt_to_llm").getD
          (.str (defaultLLMPrompt (pyStr lastContent) "")))
        "" "Help User" hist := by
    simp only [execute_plan, planInvalid_ok_false hplan, planStepsOf_dict hplan,
      hloop rest [] [] "", List.nil_append]
    rw [← get_llm_synthesis_stream_exc ⟨some l, tools, jl⟩
      ((dictLookup akvs "prompt_to_llm").getD
        (.str (defaultLLMPrompt (pyStr lastContent) ""))) "" "Help User" hist]
  refine ⟨hmain, ?_⟩
  rw [hmain]
  exact countToolCalls_stream _ _ _ _ _

def stepLLMA : PyVal :=
  .dict [("tool", .str "llm_response_generation"),
         ("arguments", .dict [("prompt_to_llm", .str "Tell a story")]),
         ("reasoning", .str "r")]

def planLLMA : PyVal := .dict [("plan", .list [stepLLMA, stepWebA])]

/-- C4 witness: the sentinel step with an explicit prompt, once reached
mid-loop — after a `web_search` tool call already recorded its event,
result and context — and once as the first step of a plan followed by a
`web_search` step that is never executed. -/
theorem claim_C4_witness :
    (loopSteps envA histA (stepLLMA :: [stepWebA])
        [Ev.toolCall (.str "web_search") (.dict [("query", .str "x")])]
        [mkToolResult (.str "web_search") "success"
          (.dict [("results", .list [.str "r1"]), ("error", PyVal.none)])]
        "prior context" =
      .returned ⟨[Ev.toolCall (.str "web_search") (.dict [("query", .str "x")])]
        ++ (get_llm_synthesis_stream envA (.str "Tell a story") "" "Help User"
          histA).events, Option.none⟩
     ∧ countToolCalls (get_llm_synthesis_stream envA (.str "Tell a story") ""
         "Help User" histA).events = 0)
    ∧ (execute_plan envA planLLMA histA =
        get_llm_synthesis_stream envA (.str "Tell a story") "" "Help User" histA
       ∧ countToolCalls (execute_plan envA planLLMA histA).events = 0) := by
  have h := claim_C4 envA lA rfl
    [("tool", .str "llm_response_generation"),
     ("arguments", .dict [("prompt_to_llm", .str "Tell a story")]),
     ("reasoning", .str "r")]
    [("prompt_to_llm", .str "Tell a story")]
    rfl rfl histA
    (.dict [("role", .str "user"), ("content", .str "hi")]) (.str "hi") rfl rfl
  exact ⟨h.1 [stepWebA]
      [Ev.toolCall (.str "web_search") (.dict [("query", .str "x")])]
      [mkToolResult (.str "web_search") "success"
        (.dict [("results", .list [.str "r1"]), ("error", PyVal.none)])]
      "prior context",
    h.2 [("plan", .list [stepLLMA, stepWebA])] [stepWebA] rfl⟩

/-! ## Claim C9: determinism of plan execution -/

/-- C9: `execute_plan` is a function of the plan, the history and the
(deterministic) collaborator behaviors: two runs on the same inputs
produce the same fragment sequence and byte-identical concatenation. -/
theorem claim_C9 (env : Env) (plan_json : PyVal) (hist : List PyVal)
    (out₁ out₂ : GenOut)
    (h₁ : execute_plan env plan_json hist = out₁)
    (h₂ : execute_plan env plan_json hist = out₂) :
    fragmentsOf out₁ = fragmentsOf out₂
    ∧ String.join (fragmentsOf out₁) = String.join (fragmentsOf out₂) := by
  subst h₁
  subst h₂
  exact ⟨rfl, rfl⟩

/-- C9 witness: replaying the two-tool plan against the fixed mocked
collaborators. -/
theorem claim_C9_witness :
    fragmentsOf (execute_plan envA planTwoA histA) =
      fragmentsOf (execute_plan envA planTwoA histA)
    ∧ String.join (fragmentsOf (execute_plan envA planTwoA histA)) =
        String.join (fragmentsOf (execute_plan envA planTwoA histA)) :=
  claim_C9 envA planTwoA histA _ _ rfl rfl

/-! ## Claim C10: the defaulted prompt needs a last conversation turn -/

/-- C10: a direct-response step whose arguments omit `prompt_to_llm` builds
its default prompt from `chat_history[-1]['content']`: with an empty
history `execute_step` raises an uncaught `IndexError`, and with a history
whose last turn carries `content` it returns the synthesis stream for the
defaulted prompt — non-empty history is the implicit precondition of the
defaulted-prompt path. -/
theorem claim_C10 (env : Env) (skvs akvs : List (String × PyVal)) (ctx : String)
    (htool : dictLookup skvs "tool" = some (.str "llm_response_generation"))
    (hargs : (dictLookup skvs "arguments").getD (.dict []) = .dict akvs)
    (hnop : dictLookup akvs "prompt_to_llm" = Option.none) :
    execute_step env (.dict skvs) [] ctx =
      ([], .error (.indexError "list index out of range"))
    ∧ ∀ (hist : List PyVal) (lastTurn lastContent : PyVal),
        listGetLast hist = .ok lastTurn →
        pyGetItem lastTurn "content" = .ok lastContent →
        execute_step env (.dict skvs) hist ctx =
          ([], .ok (.gen (get_llm_synthesis_stream env
            (.str (defaultLLMPrompt (pyStr lastContent) ctx))
            "" "Help User" hist))) := by
  constructor
  · simp [execute_step, pyGet, htool, hargs, pyEqStr, listGetLast]
  · intro hist lastTurn lastContent hlast hcontent
    have h := execute_step_sentinel env skvs akvs hist lastTurn lastContent ctx
      htool hargs hlast hcontent
    rw [h, hnop]
    rfl

/-- C10 witness: the sentinel step with empty arguments, against the
concrete history `histA` and the empty history. -/
theorem claim_C10_witness :
    execute_step envA
      (.dict [("tool", .str "llm_response_generation"),
              ("arguments", .dict []), ("reasoning", .str "r")]) [] "" =
      ([], .error (.indexError "list index out of range"))
    ∧ execute_step envA
        (.dict [("tool", .str "llm_response_generation"),
                ("arguments", .dict []), ("reasoning", .str "r")]) histA "" =
        ([], .ok (.gen (get_llm_synthesis_stream envA
          (.str (defaultLLMPrompt "hi" "")) "" "Help User" histA))) := by
  have h := claim_C10 envA
    [("tool", .str "llm_response_generation"),
     ("arguments", .dict []), ("reasoning", .str "r")]
    [] "" rfl rfl rfl
  exact ⟨h.1, h.2 histA (.dict [("role", .str "user"), ("content", .str "hi")])
    (.str "hi") rfl rfl⟩

/-! ## Claim C8: what the planner's validation path guarantees -/

theorem dictLookup_dictSet_self (kvs : List (String × PyVal)) (k : String)
    (v : PyVal) : dictLookup (dictSet kvs k v) k = some v := by
  induction kvs with
  | nil => simp [dictSet, dictLookup]
  | cons kv rest ih =>
      obtain ⟨k', v'⟩ := kv
      cases hk : (k' == k) with
      | true => simp [dictSet, hk, dictLookup]
      | false => simp [dictSet, hk, dictLookup, ih]

theorem dictLookup_dictSet_ne (kvs : List (String × PyVal)) (k k' : String)
    (v : PyVal) (h : (k == k') = false) :
    dictLookup (dictSet kvs k v) k' = dictLookup kvs k' := by
  induction kvs with
  | nil => simp [dictSet, dictLookup, h]
  | cons kv rest ih =>
      obtain ⟨k0, v0⟩ := kv
      cases hk : (k0 == k) with
      | true =>
          have hkeq : k0 = k := eq_of_beq hk
          subst hkeq
          simp [dictSet, dictLookup, h]
      | false => simp [dictSet, hk, dictLookup, ih]

/-- A step accepted by the planner's validation: a mapping carrying the
`tool`, `arguments` and `reasoning` keys. -/
def stepKeysOk (s : PyVal) : Bool :=
  match s with
  | .dict kvs =>
      (dictLookup kvs "tool").isSome && (dictLookup kvs "arguments").isSome
        && (dictLookup kvs "reasoning").isSome
  | _ => false

theorem fixStep_ok {jl : String → Except String PyVal} {s s' : PyVal}
    (h : fixStep jl s = .ok s') : stepKeysOk s' = true := by
  cases s with
  | none => simp [fixStep, pyContains] at h
  | bool b => simp [fixStep, pyContains] at h
  | int n => simp [fixStep, pyContains] at h
  | str str =>
      simp only [fixStep, pyContains, pyGetItem] at h
      split at h
      · simp at h
      · split at h
        · simp at h
        · split at h
          · simp at h
          · simp at h
  | list xs =>
      simp only [fixStep, pyContains, pyGetItem] at h
      split at h
      · simp at h
      · split at h
        · simp at h
        · split at h
          · simp at h
          · simp at h
  | dict kvs =>
      cases htool : dictLookup kvs "tool" with
      | none => simp [fixStep, pyContains, htool] at h
      | some tv =>
      cases hargs : dictLookup kvs "arguments" with
      | none => simp [fixStep, pyContains, htool, hargs] at h
      | some av =>
      cases hreas : dictLookup kvs "reasoning" with
      | none => simp [fixStep, pyContains, htool, hargs, hreas] at h
      | some rv =>
      cases av with
      | dict akvs =>
          have hs' : s' = .dict kvs := by
            simp [fixStep, pyContains, pyGetItem, htool, hargs, hreas,
              PyVal.isDict] at h
            exact h.symm
          subst hs'
          simp [stepKeysOk, htool, hargs, hreas]
      | str sv =>
          cases hjl : jl sv with
          | error e =>
              simp [fixStep, pyContains, pyGetItem, htool, hargs, hreas,
                PyVal.isDict, hjl] at h
          | ok v =>
              have hs' : s' = .dict (dictSet kvs "arguments" v) := by
                simp [fixStep, pyContains, pyGetItem, htool, hargs, hreas,
                  PyVal.isDict, hjl] at h
                exact h.symm
              subst hs'
              have h1 := dictLookup_dictSet_ne kvs "arguments" "tool" v rfl
              have h2 := dictLookup_dictSet_ne kvs "arguments" "reasoning" v rfl
              simp [stepKeysOk, dictLookup_dictSet_self, h1, h2, htool, hreas]
      | none =>
          simp [fixStep, pyContains, pyGetItem, htool, hargs, hreas,
            PyVal.isDict] at h
      | bool b =>
          simp [fixStep, pyContains, pyGetItem, htool, hargs, hreas,
            PyVal.isDict] at h
      | int n =>
          simp [fixStep, pyContains, pyGetItem, htool, hargs, hreas,
            PyVal.isDict] at h
      | list lv =>
          simp [fixStep, pyContains, pyGetItem, htool, hargs, hreas,
            PyVal.isDict] at h

theorem fixSteps_ok {jl : String → Except String PyVal} :
    ∀ {steps steps' : List PyVal}, fixSteps jl steps = .ok steps' →
      ∀ s' ∈ steps', stepKeysOk s' = true := by
  intro steps
  induction steps with
  | nil =>
      intro steps' h s' hs'
      simp only [fixSteps] at h
      cases h
      simp at hs'
  | cons a rest ih =>
      intro steps' h s' hs'
      simp only [fixSteps] at h
      cases ha : fixStep jl a with
      | error e => rw [ha] at h; simp at h
      | ok a' =>
          rw [ha] at h
          cases hr : fixSteps jl rest with
          | error e => rw [hr] at h; simp at h
          | ok rest' =>
              rw [hr] at h
              simp only at h
              cases h
              rcases List.mem_cons.mp hs' with rfl | hmem
              · exact fixStep_ok ha
              · exact ih hr s' hmem

/-- C8 (amended): a plan accepted by the planner's validation path is a
mapping whose `plan` value is a list of steps that each carry the `tool`,
`arguments` and `reasoning` keys — but that list may be empty; validation
does not enforce non-emptiness. -/
theorem claim_C8 (jl : String → Except String PyVal) (plan : PyVal)
    (q : String) (out : PyVal) (h : validatePlan jl plan q = .ok out) :
    ∃ okvs steps, out = .dict okvs
      ∧ dictLookup okvs "plan" = some (.list steps)
      ∧ ∀ s ∈ steps, stepKeysOk s = true := by
  cases plan with
  | none => simp [validatePlan, pyContains] at h
  | bool b => simp [validatePlan, pyContains] at h
  | int n => simp [validatePlan, pyContains] at h
  | str s =>
      simp only [validatePlan, pyContains, pyGetItem] at h
      split at h
      · simp at h
      · simp at h
  | list xs =>
      simp only [validatePlan, pyContains, pyGetItem] at h
      split at h
      · simp at h
      · simp at h
  | dict pkvs =>
      cases hlook : dictLookup pkvs "plan" with
      | none => simp [validatePlan, pyContains, hlook] at h
      | some pv =>
          cases pv with
          | list steps =>
              cases hfix : fixSteps jl steps with
              | error e =>
                  simp [validatePlan, pyContains, pyGetItem, hlook, hfix] at h
              | ok steps' =>
                  cases hq : dictLookup (dictSet pkvs "plan" (.list steps'))
                      "original_query" with
                  | some qv =>
                      have hout : out = .dict (dictSet pkvs "plan" (.list steps')) := by
                        simp [validatePlan, pyContains, pyGetItem, hlook, hfix,
                          hq] at h
                        exact h.symm
                      subst hout
                      exact ⟨_, steps', rfl, dictLookup_dictSet_self _ _ _,
                        fixSteps_ok hfix⟩
                  | none =>
                      have hout : out = .dict (dictSet
                          (dictSet pkvs "plan" (.list steps'))
                          "original_query" (.str q)) := by
                        simp [validatePlan, pyContains, pyGetItem, hlook, hfix,
                          hq] at h
                        exact h.symm
                      subst hout
                      refine ⟨_, steps', rfl, ?_, fixSteps_ok hfix⟩
                      rw [dictLookup_dictSet_ne (dictSet pkvs "plan" (.list steps'))
                        "original_query" "plan" (.str q) rfl]
                      exact dictLookup_dictSet_self _ _ _
          | none => simp [validatePlan, pyContains, pyGetItem, hlook] at h
          | bool b => simp [validatePlan, pyContains, pyGetItem, hlook] at h
          | int n => simp [validatePlan, pyContains, pyGetItem, hlook] at h
          | str sv => simp [validatePlan, pyContains, pyGetItem, hlook] at h
          | dict dkvs => simp [validatePlan, pyContains, pyGetItem, hlook] at h

/-- `json.loads` at exactly the planner response `{"plan": []}`. -/
def jlEmptyPlan : String → Except String PyVal := fun s =>
  if s == "\x7b\"plan\": []\x7d" then .ok (.dict [("plan", .list [])])
  else .error "Expecting value: line 1 column 1 (char 0)"

/-- C8 counterexample: a model response of exactly `{"plan": []}` passes
the whole validation path (no fallback) and the returned plan's step list
is empty, refuting the claimed non-emptiness invariant. -/
theorem claim_C8_counterexample :
    processPlannerResponse jlEmptyPlan (.str "\x7b\"plan\": []\x7d") "q"
      = .dict [("plan", .list []), ("original_query", .str "q")]
    ∧ validatePlan jlEmptyPlan (.dict [("plan", .list [])]) "q"
      = .ok (.dict [("plan", .list []), ("original_query", .str "q")]) :=
  ⟨rfl, rfl⟩

def planValidB : PyVal :=
  .dict [("plan", .list [stepWebA]), ("original_query", .str "q")]

/-- C8 witness: a well-formed single-step plan accepted by validation. -/
theorem claim_C8_witness :
    ∃ okvs steps, planValidB = PyVal.dict okvs
      ∧ dictLookup okvs "plan" = some (.list steps)
      ∧ ∀ s ∈ steps, stepKeysOk s = true :=
  claim_C8 jlEmptyPlan planValidB "q" planValidB rfl
